import Mathlib

set_option maxRecDepth 4000

/-!
Shallow embedding of the task-layout weekly time-tracking core.

The embedding follows the TypeScript sources:
* the `Task` record and `Category` union (src/types.ts);
* the store mutations `upsertTask` / `deleteTask` and the `overlaps`
  predicate (the Index page embedded in src/types.ts);
* the modal save validation (src/components/time-tracking/TaskModal.tsx);
* the CSV export `toCSV` (Index page) and the CSV import pipeline
  (`parseCSVLine`, `parseTimeToHour`, `handleFileSelect` in
  src/components/time-tracking/TaskModal.tsx);
* the drag/paste geometry of the 30-minute-slot weekly grid
  (src/unnamed/part_001).

Hours are JavaScript numbers holding multiples of 0.5; they are embedded
as rationals (`ℚ`), on which all the arithmetic performed by the code
(comparison, addition, subtraction, division by constants, rounding) is
exact.  Optional string fields become `Option String` (`undefined` ↦
`none`).
-/

namespace TaskLayout

/-- `Category` from src/types.ts: `'FACTURABLE' | 'NON_FACTURABLE'`. -/
inductive Category where
  | FACTURABLE
  | NON_FACTURABLE
deriving DecidableEq, Repr

/-- The `Task` interface from src/types.ts.  `type` is a reserved word in
Lean, so the field is spelled `type_`. -/
structure Task where
  id : String
  dateISO : String
  startHour : ℚ
  endHour : ℚ
  category : Category
  client : Option String := none
  project : Option String := none
  quote : Option String := none
  type_ : Option String := none
  description : Option String := none
  billed : Option Bool := none
deriving DecidableEq, Repr

/-- `START_HOUR = 7` (all source files). -/
def START_HOUR : ℚ := 7

/-- `END_HOUR = 20` (exclusive; all source files). -/
def END_HOUR : ℚ := 20

/-- The overlap check from the Index page:
`a.dateISO === b.dateISO && a.startHour < b.endHour && b.startHour < a.endHour && a.id !== b.id`. -/
def overlaps (a b : Task) : Bool :=
  decide (a.dateISO = b.dateISO) && decide (a.startHour < b.endHour) &&
    decide (b.startHour < a.endHour) && decide (a.id ≠ b.id)

/-- Result of `upsertTask`: `{ ok: true } | { ok: false; error: string }`. -/
inductive UpsertResult where
  | ok
  | error (msg : String)
deriving DecidableEq, Repr

/-- The `setTasks` update inside `upsertTask`: replace the task with the
same id if one exists, otherwise append. -/
def applyUpsert (tasks : List Task) (task : Task) : List Task :=
  if tasks.any (fun t => t.id == task.id) then
    tasks.map (fun t => if t.id == task.id then task else t)
  else
    tasks ++ [task]

/-- `upsertTask` from the Index page: reject when the hour range leaves
`[START_HOUR, END_HOUR]`, then reject on any overlap with a stored task,
otherwise commit.  Returns the (possibly unchanged) store plus the
result value. -/
def upsertTask (tasks : List Task) (task : Task) : List Task × UpsertResult :=
  if task.startHour < START_HOUR ∨ task.endHour > END_HOUR then
    (tasks, UpsertResult.error ("Plage horaire invalide (07:00 → 20:00)."))
  else if tasks.any (fun t => overlaps task t) then
    (tasks, UpsertResult.error ("Chevauchement détecté."))
  else
    (applyUpsert tasks task, UpsertResult.ok)

/-- `deleteTask` from the Index page: `prev.filter(t => t.id !== id)`. -/
def deleteTask (tasks : List Task) (id : String) : List Task :=
  tasks.filter (fun t => t.id != id)

/-- Store states reachable from the empty store by accepted upserts and
deletes. -/
inductive Reachable : List Task → Prop where
  | empty : Reachable []
  | upsert (s : List Task) (t : Task) (h : Reachable s)
      (hok : (upsertTask s t).2 = UpsertResult.ok) : Reachable (upsertTask s t).1
  | delete (s : List Task) (id : String) (h : Reachable s) :
      Reachable (deleteTask s id)

/-- Spec-side notion: the half-open intervals `[a.startHour, a.endHour)`
and `[b.startHour, b.endHour)` have a common point. -/
def IntervalsIntersect (a b : Task) : Prop :=
  ∃ x : ℚ, (a.startHour ≤ x ∧ x < a.endHour) ∧ (b.startHour ≤ x ∧ x < b.endHour)

theorem intervalsIntersect_lt {a b : Task} (h : IntervalsIntersect a b) :
    a.startHour < b.endHour ∧ b.startHour < a.endHour := by
  obtain ⟨x, ⟨ha1, ha2⟩, hb1, hb2⟩ := h
  exact ⟨lt_of_le_of_lt ha1 hb2, lt_of_le_of_lt hb1 ha2⟩

theorem intervalsIntersect_of_lt {a b : Task}
    (h1 : a.startHour < b.endHour) (h2 : b.startHour < a.endHour)
    (ha : a.startHour < a.endHour) (hb : b.startHour < b.endHour) :
    IntervalsIntersect a b := by
  refine ⟨max a.startHour b.startHour, ⟨le_max_left _ _, ?_⟩, le_max_right _ _, ?_⟩
  · exact max_lt ha h2
  · exact max_lt h1 hb

theorem overlaps_comm (a b : Task) : overlaps a b = overlaps b a := by
  simp only [overlaps]
  by_cases h1 : a.dateISO = b.dateISO <;>
    by_cases h2 : a.startHour < b.endHour <;>
      by_cases h3 : b.startHour < a.endHour <;>
        by_cases h4 : a.id = b.id <;>
          simp [h1, h2, h3, h4, eq_comm]

theorem upsert_snd_ok_iff (s : List Task) (c : Task) :
    (upsertTask s c).2 = UpsertResult.ok ↔
      ¬ c.startHour < START_HOUR ∧ ¬ c.endHour > END_HOUR ∧
        ∀ t ∈ s, overlaps c t = false := by
  unfold upsertTask
  split_ifs with h1 h2
  · constructor
    · intro h; simp at h
    · rintro ⟨ha, hb, -⟩
      rcases h1 with h | h
      exacts [absurd h ha, absurd h hb]
  · constructor
    · intro h; simp at h
    · rintro ⟨-, -, hall⟩
      obtain ⟨t, ht, hov⟩ := List.any_eq_true.1 h2
      exact absurd (hall t ht) (by simp [hov])
  · push_neg at h1
    refine ⟨fun _ => ⟨fun h => absurd h (not_lt.2 h1.1), fun h => absurd h (not_lt.2 h1.2), ?_⟩, fun _ => rfl⟩
    intro t ht
    by_contra h
    exact h2 (List.any_eq_true.2 ⟨t, ht, by simp at h; simp [h]⟩)

theorem upsert_fst_of_ok (s : List Task) (c : Task)
    (h : (upsertTask s c).2 = UpsertResult.ok) :
    (upsertTask s c).1 = applyUpsert s c := by
  unfold upsertTask at h ⊢
  split_ifs at h ⊢
  rfl

/-- The store invariant maintained by the accepted mutations: ids identify
tasks, and tasks with different ids never satisfy the code's overlap
predicate. -/
def Consistent (s : List Task) : Prop :=
  (∀ a ∈ s, ∀ b ∈ s, a.id = b.id → a = b) ∧
    ∀ a ∈ s, ∀ b ∈ s, a.id ≠ b.id → overlaps a b = false

theorem applyUpsert_consistent (s : List Task) (c : Task)
    (hs : Consistent s) (hov : ∀ t ∈ s, overlaps c t = false) :
    Consistent (applyUpsert s c) := by
  obtain ⟨hid, hno⟩ := hs
  unfold applyUpsert
  split_ifs with hex
  · constructor
    · intro a ha b hb hab
      obtain ⟨ta, hta, hfa⟩ := List.mem_map.1 ha
      obtain ⟨tb, htb, hfb⟩ := List.mem_map.1 hb
      by_cases ea : ta.id = c.id <;> by_cases eb : tb.id = c.id
      · rw [if_pos (by simp [ea])] at hfa
        rw [if_pos (by simp [eb])] at hfb
        rw [← hfa, ← hfb]
      · rw [if_pos (by simp [ea])] at hfa
        rw [if_neg (by simp [eb])] at hfb
        subst hfa; subst hfb
        exact absurd hab.symm eb
      · rw [if_neg (by simp [ea])] at hfa
        rw [if_pos (by simp [eb])] at hfb
        subst hfa; subst hfb
        exact absurd hab ea
      · rw [if_neg (by simp [ea])] at hfa
        rw [if_neg (by simp [eb])] at hfb
        subst hfa; subst hfb
        exact hid ta hta tb htb hab
    · intro a ha b hb hab
      obtain ⟨ta, hta, hfa⟩ := List.mem_map.1 ha
      obtain ⟨tb, htb, hfb⟩ := List.mem_map.1 hb
      by_cases ea : ta.id = c.id <;> by_cases eb : tb.id = c.id
      · rw [if_pos (by simp [ea])] at hfa
        rw [if_pos (by simp [eb])] at hfb
        subst hfa; subst hfb
        exact absurd rfl hab
      · rw [if_pos (by simp [ea])] at hfa
        rw [if_neg (by simp [eb])] at hfb
        subst hfa; subst hfb
        exact hov tb htb
      · rw [if_neg (by simp [ea])] at hfa
        rw [if_pos (by simp [eb])] at hfb
        subst hfa; subst hfb
        rw [overlaps_comm]
        exact hov ta hta
      · rw [if_neg (by simp [ea])] at hfa
        rw [if_neg (by simp [eb])] at hfb
        subst hfa; subst hfb
        exact hno ta hta tb htb hab
  · have hfresh : ∀ t ∈ s, t.id ≠ c.id := by
      intro t ht he
      exact hex (List.any_eq_true.2 ⟨t, ht, by simp [he]⟩)
    constructor
    · intro a ha b hb hab
      rcases List.mem_append.1 ha with ha' | ha' <;>
        rcases List.mem_append.1 hb with hb' | hb'
      · exact hid a ha' b hb' hab
      · simp only [List.mem_singleton] at hb'; subst hb'
        exact absurd hab (hfresh a ha')
      · simp only [List.mem_singleton] at ha'; subst ha'
        exact absurd hab.symm (hfresh b hb')
      · simp only [List.mem_singleton] at ha' hb'; rw [ha', hb']
    · intro a ha b hb hab
      rcases List.mem_append.1 ha with ha' | ha' <;>
        rcases List.mem_append.1 hb with hb' | hb'
      · exact hno a ha' b hb' hab
      · simp only [List.mem_singleton] at hb'; subst hb'
        rw [overlaps_comm]; exact hov a ha'
      · simp only [List.mem_singleton] at ha'; subst ha'
        exact hov b hb'
      · simp only [List.mem_singleton] at ha' hb'
        subst ha'; subst hb'; exact absurd rfl hab

theorem reachable_consistent {s : List Task} (h : Reachable s) : Consistent s := by
  induction h with
  | empty => exact ⟨by simp, by simp⟩
  | upsert s t _ hok ih =>
    rw [upsert_fst_of_ok s t hok]
    obtain ⟨-, -, hov⟩ := (upsert_snd_ok_iff s t).1 hok
    exact applyUpsert_consistent s t ih hov
  | delete s id _ ih =>
    obtain ⟨hid, hno⟩ := ih
    constructor
    · intro a ha b hb
      exact hid a (List.mem_filter.1 ha).1 b (List.mem_filter.1 hb).1
    · intro a ha b hb
      exact hno a (List.mem_filter.1 ha).1 b (List.mem_filter.1 hb).1

/-- Scenario A task: 2025-01-06 (a Monday), 09:00–10:00, billable for "Acme". -/
def taskA : Task :=
  { id := "a", dateISO := "2025-01-06", startHour := 9, endHour := 10,
    category := Category.FACTURABLE, client := some ("Acme"), billed := some false }

/-- Scenario B task: same date, 09:30–10:30, overlapping `taskA`. -/
def taskB : Task :=
  { id := "b", dateISO := "2025-01-06", startHour := 19/2, endHour := 21/2,
    category := Category.FACTURABLE, client := some ("Acme"), billed := some false }

/-- Scenario C task: same date, 10:00–11:00, touching `taskA` at 10:00. -/
def taskC : Task :=
  { id := "c", dateISO := "2025-01-06", startHour := 10, endHour := 11,
    category := Category.NON_FACTURABLE, type_ := some ("Formation") }

theorem reachable_AC : Reachable [taskA, taskC] := by
  have h1 : (upsertTask [] taskA).2 = UpsertResult.ok := by with_unfolding_all decide
  have e1 : (upsertTask [] taskA).1 = [taskA] := by with_unfolding_all decide
  have r1 : Reachable [taskA] := e1 ▸ Reachable.upsert [] taskA Reachable.empty h1
  have h2 : (upsertTask [taskA] taskC).2 = UpsertResult.ok := by with_unfolding_all decide
  have e2 : (upsertTask [taskA] taskC).1 = [taskA, taskC] := by with_unfolding_all decide
  exact e2 ▸ Reachable.upsert [taskA] taskC r1 h2

/-- Claim C1: in every reachable store state, distinct stored tasks with
the same date have non-intersecting half-open intervals; an in-range
candidate whose interval intersects a stored task with the same date and
a different id is rejected with the conflict error, while a candidate
that at most touches endpoints (its interval ordered before or after
every stored same-date task) is accepted. -/
theorem C1_no_overlap_invariant :
    (∀ s, Reachable s → ∀ a ∈ s, ∀ b ∈ s, a ≠ b → a.dateISO = b.dateISO →
        ¬ IntervalsIntersect a b) ∧
    (∀ (s : List Task) (c : Task), ¬ c.startHour < START_HOUR → ¬ c.endHour > END_HOUR →
        (∃ t ∈ s, t.dateISO = c.dateISO ∧ t.id ≠ c.id ∧ IntervalsIntersect c t) →
        (upsertTask s c).2 = UpsertResult.error ("Chevauchement détecté.")) ∧
    (∀ (s : List Task) (c : Task), ¬ c.startHour < START_HOUR → ¬ c.endHour > END_HOUR →
        (∀ t ∈ s, t.dateISO = c.dateISO → t.id ≠ c.id →
          c.endHour ≤ t.startHour ∨ t.endHour ≤ c.startHour) →
        (upsertTask s c).2 = UpsertResult.ok) := by
  refine ⟨?_, ?_, ?_⟩
  · intro s hr a ha b hb hne hdate hint
    obtain ⟨hid, hno⟩ := reachable_consistent hr
    have hidne : a.id ≠ b.id := fun h => hne (hid a ha b hb h)
    have hov := hno a ha b hb hidne
    obtain ⟨l1, l2⟩ := intervalsIntersect_lt hint
    simp [overlaps, hdate, l1, l2, hidne] at hov
  · rintro s c h1 h2 ⟨t, ht, hdate, hidne, hint⟩
    unfold upsertTask
    rw [if_neg (not_or.2 ⟨h1, h2⟩), if_pos]
    exact List.any_eq_true.2 ⟨t, ht, by
      simp [overlaps, hdate.symm, (intervalsIntersect_lt hint).1,
        (intervalsIntersect_lt hint).2, Ne.symm hidne]⟩
  · intro s c h1 h2 hall
    refine (upsert_snd_ok_iff s c).2 ⟨h1, h2, ?_⟩
    intro t ht
    by_cases hd : t.dateISO = c.dateISO
    · by_cases hi : t.id = c.id
      · simp [overlaps, hi]
      · rcases hall t ht hd hi with h | h <;> simp [overlaps, not_lt.2 h]
    · simp [overlaps, Ne.symm hd]

/-- Witness for C1 at the spec's scenarios: `taskA` and `taskC` coexist
without intersecting, `taskB` is rejected as a conflict, `taskC`
(touching `taskA` at 10:00) is accepted. -/
theorem C1_no_overlap_invariant_witness :
    ¬ IntervalsIntersect taskA taskC ∧
      (upsertTask [taskA] taskB).2 = UpsertResult.error ("Chevauchement détecté.") ∧
      (upsertTask [taskA] taskC).2 = UpsertResult.ok := by
  refine ⟨?_, ?_, ?_⟩
  · exact C1_no_overlap_invariant.1 [taskA, taskC] reachable_AC taskA (by with_unfolding_all decide)
      taskC (by with_unfolding_all decide) (by with_unfolding_all decide) (by with_unfolding_all decide)
  · exact C1_no_overlap_invariant.2.1 [taskA] taskB (by with_unfolding_all decide) (by with_unfolding_all decide)
      ⟨taskA, by with_unfolding_all decide, by with_unfolding_all decide, by with_unfolding_all decide, ⟨19/2, by with_unfolding_all decide⟩⟩
  · exact C1_no_overlap_invariant.2.2 [taskA] taskC (by with_unfolding_all decide) (by with_unfolding_all decide) (by with_unfolding_all decide)

/-- Claim C2: whenever `upsertTask` returns an error (range validation or
conflict), the stored collection it returns is exactly the input store. -/
theorem C2_error_leaves_store_unchanged :
    ∀ (s : List Task) (c : Task) (msg : String),
      (upsertTask s c).2 = UpsertResult.error msg → (upsertTask s c).1 = s := by
  intro s c msg h
  unfold upsertTask at h ⊢
  split_ifs at h ⊢
  all_goals rfl

/-- Scenario E task: 19:30–20:30 exceeds the 20:00 bound. -/
def taskE : Task :=
  { id := "e", dateISO := "2025-01-06", startHour := 39/2, endHour := 41/2,
    category := Category.NON_FACTURABLE, type_ := some ("Formation") }

/-- Witness for C2: a range rejection and a conflict rejection both leave
the store unchanged. -/
theorem C2_error_leaves_store_unchanged_witness :
    (upsertTask [] taskE).1 = [] ∧ (upsertTask [taskA] taskB).1 = [taskA] :=
  ⟨C2_error_leaves_store_unchanged [] taskE
      ("Plage horaire invalide (07:00 → 20:00).") (by with_unfolding_all rfl),
    C2_error_leaves_store_unchanged [taskA] taskB
      ("Chevauchement détecté.") (by with_unfolding_all rfl)⟩

/-- A time value is slot-aligned when it is an integer multiple of 0.5
hours, i.e. when `2 * q` is an integer. -/
def halfAligned (q : ℚ) : Prop := (2 * q).den = 1

/-- A degenerate quarter-hour candidate: startHour = endHour = 9.25. -/
def taskQuarter : Task :=
  { id := "q", dateISO := "2025-01-06", startHour := 37/4, endHour := 37/4,
    category := Category.NON_FACTURABLE, type_ := some ("Formation") }

/-- Counterexample to claim C4: `upsertTask` accepts a candidate with
startTime = endTime = 9.25, which is neither `start < end` nor
slot-aligned; the code checks only `start < 7` and `end > 20`. -/
theorem C4_counterexample :
    (upsertTask [] taskQuarter).2 = UpsertResult.ok ∧
      ¬ taskQuarter.startHour < taskQuarter.endHour ∧
      ¬ halfAligned taskQuarter.startHour := by
  refine ⟨?_, ?_, ?_⟩
  · with_unfolding_all decide
  · with_unfolding_all decide
  · unfold halfAligned
    with_unfolding_all decide

/-- Claim C4 amended: `upsertTask` accepts a candidate exactly when
`START_HOUR ≤ startHour`, `endHour ≤ END_HOUR` and no stored task
satisfies the overlap predicate; it checks neither `startTime < endTime`
nor 0.5-hour alignment. -/
theorem C4_amended_range_only_validation :
    ∀ (s : List Task) (c : Task),
      (upsertTask s c).2 = UpsertResult.ok ↔
        START_HOUR ≤ c.startHour ∧ c.endHour ≤ END_HOUR ∧
          ∀ t ∈ s, overlaps c t = false := by
  intro s c
  rw [upsert_snd_ok_iff]
  simp [not_lt, gt_iff_lt]

/-- Witness for C4 amended: the acceptance criterion applied to
Scenario A on an empty store. -/
theorem C4_amended_range_only_validation_witness :
    (upsertTask [] taskA).2 = UpsertResult.ok :=
  (C4_amended_range_only_validation [] taskA).2
    ⟨by with_unfolding_all decide, by with_unfolding_all decide, by with_unfolding_all decide⟩

/-- The validation gate of `handleSave` in TaskModal.tsx: client required
for FACTURABLE, type required for NON_FACTURABLE, end must not pass
END_HOUR; the first failing check yields its message and the task is not
submitted to `onSave`. -/
def handleSaveCheck (category : Category) (client type_ : String) (endHour : ℚ) :
    Option String :=
  if category = Category.FACTURABLE ∧ client.trim = "" then some ("Client requis.")
  else if category = Category.NON_FACTURABLE ∧ type_.trim = "" then some ("Type requis.")
  else if endHour > END_HOUR then some ("La durée dépasse 20:00.")
  else none

/-- A billable candidate with no client field. -/
def taskNoClient : Task :=
  { id := "nc", dateISO := "2025-01-06", startHour := 9, endHour := 10,
    category := Category.FACTURABLE, client := none, billed := some false }

/-- Counterexample to claim C6: `upsertTask` accepts a FACTURABLE
candidate whose client field is absent; it never inspects the
category-conditioned fields. -/
theorem C6_counterexample :
    (upsertTask [] taskNoClient).2 = UpsertResult.ok ∧
      taskNoClient.category = Category.FACTURABLE ∧
      taskNoClient.client = none := by
  refine ⟨?_, ?_, ?_⟩ <;> with_unfolding_all decide

theorem upsert_snd_congr (s : List Task) (c c' : Task)
    (hi : c.id = c'.id) (hd : c.dateISO = c'.dateISO)
    (hs : c.startHour = c'.startHour) (he : c.endHour = c'.endHour) :
    (upsertTask s c).2 = (upsertTask s c').2 := by
  simp only [upsertTask, overlaps, hi, hd, hs, he, apply_ite Prod.snd]

/-- Claim C6 amended: `upsertTask` performs no category-conditioned field
validation — its result is unchanged under any values of client, project,
quote, type, description and billed — and the rules are enforced only by
the modal save gate, which errors before calling upsert. -/
theorem C6_amended_category_fields_in_modal :
    (∀ (s : List Task) (c : Task) (cl pr qu ty de : Option String) (bi : Option Bool),
        (upsertTask s { c with client := cl, project := pr, quote := qu, type_ := ty, description := de, billed := bi }).2 = (upsertTask s c).2) ∧
    (∀ (cl ty : String) (e : ℚ), cl.trim = "" →
        handleSaveCheck Category.FACTURABLE cl ty e = some ("Client requis.")) ∧
    (∀ (cl ty : String) (e : ℚ), ty.trim = "" →
        handleSaveCheck Category.NON_FACTURABLE cl ty e = some ("Type requis.")) := by
  refine ⟨?_, ?_, ?_⟩
  · intro s c cl pr qu ty de bi
    exact upsert_snd_congr s _ c rfl rfl rfl rfl
  · intro cl ty e h
    unfold handleSaveCheck
    rw [if_pos ⟨rfl, h⟩]
  · intro cl ty e h
    unfold handleSaveCheck
    rw [if_neg (by rintro ⟨h1, -⟩; cases h1), if_pos ⟨rfl, h⟩]

/-- Witness for C6 amended: stripping all category-conditioned fields from
`taskA` does not change the upsert outcome, and the modal gate rejects a
blank client / blank type. -/
theorem C6_amended_category_fields_in_modal_witness :
    (upsertTask [] { taskA with client := none, project := none, quote := none, type_ := none, description := none, billed := none }).2 = (upsertTask [] taskA).2 ∧
    handleSaveCheck Category.FACTURABLE ("") ("x") 10 = some ("Client requis.") ∧
    handleSaveCheck Category.NON_FACTURABLE ("x") ("") 10 = some ("Type requis.") :=
  ⟨C6_amended_category_fields_in_modal.1 [] taskA none none none none none none,
    C6_amended_category_fields_in_modal.2.1 ("") ("x") 10 (by with_unfolding_all decide),
    C6_amended_category_fields_in_modal.2.2 ("x") ("") 10 (by with_unfolding_all decide)⟩

/-- Claim C10: `upsertTask` never validates the date string — any
candidate whose hours are in range and which overlaps no stored task is
accepted, whatever the content of `dateISO`. -/
theorem C10_no_date_validation :
    ∀ (s : List Task) (c : Task),
      START_HOUR ≤ c.startHour → c.endHour ≤ END_HOUR →
      (∀ t ∈ s, overlaps c t = false) →
      (upsertTask s c).2 = UpsertResult.ok := by
  intro s c h1 h2 h3
  exact (upsert_snd_ok_iff s c).2 ⟨not_lt.2 h1, not_lt.2 h2, h3⟩

/-- A task dated on a Sunday (2025-01-05), outside the Monday–Saturday grid. -/
def taskSunday : Task :=
  { id := "s", dateISO := "2025-01-05", startHour := 9, endHour := 10,
    category := Category.NON_FACTURABLE, type_ := some ("Admin") }

/-- A task whose date is not a well-formed YYYY-MM-DD string at all. -/
def taskGarbageDate : Task :=
  { id := "g", dateISO := "not-a-date", startHour := 9, endHour := 10,
    category := Category.NON_FACTURABLE, type_ := some ("Admin") }

/-- Witness for C10: a Sunday-dated task and a malformed-date task are both
accepted. -/
theorem C10_no_date_validation_witness :
    (upsertTask [] taskSunday).2 = UpsertResult.ok ∧
      (upsertTask [taskSunday] taskGarbageDate).2 = UpsertResult.ok :=
  ⟨C10_no_date_validation [] taskSunday (by with_unfolding_all decide)
      (by with_unfolding_all decide) (by with_unfolding_all decide),
    C10_no_date_validation [taskSunday] taskGarbageDate (by with_unfolding_all decide)
      (by with_unfolding_all decide) (by with_unfolding_all decide)⟩

/-- `HOUR_H = 60` px and `SLOT_H = HOUR_H / 2 = 30` px per 30-minute slot
(src/unnamed/part_001); one pixel corresponds to one minute. -/
def SLOT_H : ℚ := 30

/-- JavaScript `Math.round`: round half toward positive infinity. -/
def jsRound (x : ℚ) : ℤ := ⌊x + 1/2⌋

/-- The snapped slot count `Math.round(dy / SLOT_H)` computed in `handleUp`
on drag release (src/unnamed/part_001). -/
def dragShiftSlots (dy : ℚ) : ℤ := jsRound (dy / SLOT_H)

/-- The new start hour on drag release:
`Math.min(END_HOUR - durationH, Math.max(START_HOUR, t.startHour + shiftSlots * 0.5))`. -/
def dragNewStart (startHour durationH dy : ℚ) : ℚ :=
  min (END_HOUR - durationH) (max START_HOUR (startHour + (dragShiftSlots dy : ℚ) * (1/2)))

/-- Counterexample to claim C9: a vertical delta of 47 px (= 47 minutes at
30 px per 30-minute slot) snaps to 2 slots, because 47/30 rounds to 2 —
not to 1 as the claim states. -/
theorem C9_counterexample :
    dragShiftSlots 47 = 2 ∧ dragShiftSlots 47 ≠ 1 := by
  refine ⟨?_, ?_⟩ <;> with_unfolding_all decide

/-- Claim C9 amended: the release computation rounds the pixel delta to the
nearest whole number of slots, and a 47-minute delta is nearer to 2 slots
(60 min) than to 1 (30 min), so it yields exactly 2 slots; a delta within
15 minutes of a slot multiple (e.g. 40 min) snaps to that multiple. -/
theorem C9_amended_snap_rounding :
    (∀ (dy : ℚ) (k : ℤ), |dy / SLOT_H - k| < 1/2 → dragShiftSlots dy = k) ∧
      dragShiftSlots 47 = 2 := by
  constructor
  · intro dy k h
    rw [abs_sub_lt_iff] at h
    obtain ⟨h1, h2⟩ := h
    unfold dragShiftSlots jsRound
    rw [Int.floor_eq_iff]
    constructor <;> linarith
  · with_unfolding_all decide

/-- Witness for C9 amended: a 40-minute delta snaps to 1 slot. -/
theorem C9_amended_snap_rounding_witness :
    dragShiftSlots 40 = 1 :=
  C9_amended_snap_rounding.1 40 1
    (by rw [abs_sub_lt_iff]; constructor <;> norm_num [SLOT_H])

/-- The paste branch of `handleKey` (src/unnamed/part_001): duration taken
from the clipboard task, start clamped to
`[START_HOUR, END_HOUR − 0.5]`, fresh id, hover date, end = start +
duration. -/
def pasteTask (copied : Task) (freshId hoverDate : String) (hoverHour : ℚ) : Task :=
  let duration := copied.endHour - copied.startHour
  let start := max START_HOUR (min (END_HOUR - 1/2) hoverHour)
  { copied with id := freshId, dateISO := hoverDate, startHour := start, endHour := start + duration }

/-- The paste command submits the constructed candidate through `onUpsert`,
i.e. through `upsertTask`. -/
def pasteCommand (tasks : List Task) (copied : Task) (freshId hoverDate : String)
    (hoverHour : ℚ) : List Task × UpsertResult :=
  upsertTask tasks (pasteTask copied freshId hoverDate hoverHour)

/-- A 2-hour clipboard task, 09:00–11:00. -/
def taskCopy2h : Task :=
  { id := "k", dateISO := "2025-01-06", startHour := 9, endHour := 11,
    category := Category.NON_FACTURABLE, type_ := some ("Formation") }

/-- Counterexample to claim C7: pasting the 2-hour clipboard task at hover
time 19:30 produces startTime 19:30 — greater than 20:00 − duration = 18:00
— and endTime 21:30 > 20:00; the code clamps to END_HOUR − 0.5, not
END_HOUR − duration, and the upsert path then rejects the candidate. -/
theorem C7_counterexample :
    (pasteTask taskCopy2h ("p") ("2025-01-07") (39/2)).startHour = 39/2 ∧
      ¬ (pasteTask taskCopy2h ("p") ("2025-01-07") (39/2)).startHour
          ≤ END_HOUR - (taskCopy2h.endHour - taskCopy2h.startHour) ∧
      (pasteTask taskCopy2h ("p") ("2025-01-07") (39/2)).endHour = 43/2 ∧
      (pasteCommand [] taskCopy2h ("p") ("2025-01-07") (39/2)).2 =
        UpsertResult.error ("Plage horaire invalide (07:00 → 20:00).") := by
  refine ⟨?_, ?_, ?_, ?_⟩
  · with_unfolding_all decide
  · with_unfolding_all decide
  · with_unfolding_all decide
  · with_unfolding_all rfl

/-- Claim C7 amended: the paste candidate has the fresh id, the hover date,
start = hover time clamped to `[START_HOUR, END_HOUR − 0.5]` (independently
of the duration), end = start + the clipboard task's duration, all other
fields copied from the clipboard task, and it is submitted through the
same upsert path. -/
theorem C7_amended_paste_construction :
    ∀ (tasks : List Task) (copied : Task) (freshId hoverDate : String) (hoverHour : ℚ),
      (pasteTask copied freshId hoverDate hoverHour).id = freshId ∧
      (pasteTask copied freshId hoverDate hoverHour).dateISO = hoverDate ∧
      (pasteTask copied freshId hoverDate hoverHour).startHour
          = max START_HOUR (min (END_HOUR - 1/2) hoverHour) ∧
      (pasteTask copied freshId hoverDate hoverHour).endHour
          = (pasteTask copied freshId hoverDate hoverHour).startHour
              + (copied.endHour - copied.startHour) ∧
      (pasteTask copied freshId hoverDate hoverHour).category = copied.category ∧
      (pasteTask copied freshId hoverDate hoverHour).client = copied.client ∧
      (pasteTask copied freshId hoverDate hoverHour).project = copied.project ∧
      (pasteTask copied freshId hoverDate hoverHour).quote = copied.quote ∧
      (pasteTask copied freshId hoverDate hoverHour).type_ = copied.type_ ∧
      (pasteTask copied freshId hoverDate hoverHour).description = copied.description ∧
      (pasteTask copied freshId hoverDate hoverHour).billed = copied.billed ∧
      pasteCommand tasks copied freshId hoverDate hoverHour
          = upsertTask tasks (pasteTask copied freshId hoverDate hoverHour) := by
  intro tasks copied freshId hoverDate hoverHour
  exact ⟨rfl, rfl, rfl, rfl, rfl, rfl, rfl, rfl, rfl, rfl, rfl, rfl⟩

/-- JavaScript `text.split(sep)` for a single-character separator, on
character lists; `''.split(x) = ['']`. -/
def splitOnChar (sep : Char) : List Char → List (List Char)
  | [] => [[]]
  | c :: rest =>
    let r := splitOnChar sep rest
    if c = sep then [] :: r
    else
      match r with
      | [] => [[c]]
      | x :: xs => (c :: x) :: xs

/-- `text.split('\n')` from `handleFileSelect`. -/
def jsSplitLines (text : String) : List String :=
  (splitOnChar ('\x0a') text.data).map (fun cs => String.mk cs)

/-- JavaScript `String.prototype.trim`. -/
def jsTrim (s : String) : String :=
  String.mk (((s.data.dropWhile Char.isWhitespace).reverse.dropWhile Char.isWhitespace).reverse)

/-- `lines = text.split('\n').map(l => l.trim()).filter(l => l)`. -/
def preprocessLines (text : String) : List String :=
  ((jsSplitLines text).map jsTrim).filter (fun l => l != "")

/-- The quote-aware `;`-splitter `parseCSVLine` from TaskModal.tsx,
accumulating the current field and the finished fields. -/
def parseCSVLineAux : Bool → List Char → List (List Char) → List Char → List (List Char)
  | true, cur, acc, '\x22' :: '\x22' :: rest => parseCSVLineAux true (cur ++ ['\x22']) acc rest
  | true, cur, acc, '\x22' :: rest => parseCSVLineAux false cur acc rest
  | false, cur, acc, '\x22' :: rest => parseCSVLineAux true cur acc rest
  | false, cur, acc, ';' :: rest => parseCSVLineAux false [] (acc ++ [cur]) rest
  | inQuotes, cur, acc, c :: rest => parseCSVLineAux inQuotes (cur ++ [c]) acc rest
  | _, cur, acc, [] => acc ++ [cur]

def parseCSVLine (line : String) : List String :=
  (parseCSVLineAux false [] [] line.data).map (fun cs => String.mk cs)

/-- Digit run to number, as `parseInt` does on an all-digit string. -/
def natOfDigits (cs : List Char) : ℕ :=
  cs.foldl (fun n c => 10 * n + (c.toNat - ('0').toNat)) 0

/-- `parseTimeToHour` from TaskModal.tsx: the input must match
`^(\d{1,2}):(\d{2})$`, hours at most 23 (they are nonnegative by type
here), minutes exactly 0 or 30; the result is `hours + 0.5` on the half
hour. -/
def parseTimeToHour (time : String) : Except String ℚ :=
  match splitOnChar (':') time.data with
  | [hcs, mcs] =>
    if (hcs.length = 1 ∨ hcs.length = 2) ∧ hcs.all Char.isDigit ∧
        mcs.length = 2 ∧ mcs.all Char.isDigit then
      let hours := natOfDigits hcs
      let minutes := natOfDigits mcs
      if hours > 23 ∨ (minutes ≠ 0 ∧ minutes ≠ 30) then
        Except.error ("Heure invalide: " ++ time ++
          " (seules les heures pleines et demi-heures sont supportées)")
      else
        Except.ok ((hours : ℚ) + (if minutes = 30 then (1 : ℚ)/2 else 0))
    else
      Except.error ("Format d\x27heure invalide: " ++ time)
  | _ => Except.error ("Format d\x27heure invalide: " ++ time)

/-- The date regex `^\d{4}-\d{2}-\d{2}$` from `handleFileSelect`. -/
def isDateFormat (s : String) : Bool :=
  match s.data with
  | [y1, y2, y3, y4, '-', m1, m2, '-', d1, d2] =>
    [y1, y2, y3, y4, m1, m2, d1, d2].all Char.isDigit
  | _ => false

/-- JavaScript `toLowerCase` (ASCII suffices for the compared literals). -/
def jsToLower (s : String) : String := String.mk (s.data.map Char.toLower)

/-- `x || undefined` on a string field: empty becomes absent. -/
def strOrNone (s : String) : Option String := if s = "" then none else some s

/-- One data line of `handleFileSelect`: split, check the field count,
then validate date format, the two times, start < end, the category enum
and the billed enum, in the code's order; the first failure is the line's
error.  `freshId` stands for `generateTaskId()`. -/
def parseDataLine (freshId : String) (lineNum : ℕ) (line : String) : Except String Task :=
  let fields := parseCSVLine line
  match fields with
  | [dateISO, heureDebut, heureFin, categorie, client, projet, devis, type_, description,
      _dureeH, facturee] =>
    if ¬ isDateFormat dateISO then
      Except.error ("Ligne " ++ toString lineNum ++ ": Format de date invalide (attendu: YYYY-MM-DD)")
    else
      match parseTimeToHour heureDebut with
      | Except.error e => Except.error e
      | Except.ok startHour =>
        match parseTimeToHour heureFin with
        | Except.error e => Except.error e
        | Except.ok endHour =>
          if startHour ≥ endHour then
            Except.error ("Ligne " ++ toString lineNum ++
              ": L\x27heure de fin doit être supérieure à l\x27heure de début")
          else if categorie ≠ "FACTURABLE" ∧ categorie ≠ "NON_FACTURABLE" then
            Except.error ("Ligne " ++ toString lineNum ++ ": Catégorie invalide (" ++ categorie ++
              "). Attendu: FACTURABLE ou NON_FACTURABLE")
          else
            match (if categorie = "FACTURABLE" ∧ facturee ≠ "" then
                    (if jsToLower facturee = "oui" then Except.ok true
                     else if jsToLower facturee = "non" then Except.ok false
                     else Except.error ("Ligne " ++ toString lineNum ++ ": Valeur \x27facturee\x27 invalide (" ++
                       facturee ++ "). Attendu: \x27oui\x27 ou \x27non\x27"))
                  else (Except.ok false : Except String Bool)) with
            | Except.error e => Except.error e
            | Except.ok billed =>
              Except.ok { id := freshId, dateISO := dateISO, startHour := startHour,
                          endHour := endHour,
                          category := (if categorie = "FACTURABLE" then Category.FACTURABLE
                            else Category.NON_FACTURABLE),
                          client := strOrNone client, project := strOrNone projet,
                          quote := strOrNone devis, type_ := strOrNone type_,
                          description := strOrNone description, billed := some billed }
  | _ =>
    Except.error ("Ligne " ++ toString lineNum ++ ": Nombre de colonnes incorrect (" ++
      toString fields.length ++ "/11)")

/-- Outcome of the import handler: a fatal error (empty file / bad
header), aggregated per-line errors, an empty clean parse, or the task
list handed to `onImport`. -/
inductive ImportResult where
  | fatal (msg : String)
  | lineErrors (errs : List String)
  | nothingToImport
  | success (tasks : List Task)
deriving DecidableEq, Repr

/-- The data-line loop of `handleFileSelect`: each line either pushes a
task or pushes `Ligne N: <message>` onto the error list. -/
def collectLines (fresh : ℕ → String) : List (ℕ × String) → List Task × List String
  | [] => ([], [])
  | (n, l) :: rest =>
    let r := collectLines fresh rest
    match parseDataLine (fresh n) n l with
    | Except.ok t => (t :: r.1, r.2)
    | Except.error e => (r.1, ("Ligne " ++ toString n ++ ": " ++ e) :: r.2)

/-- The byte-exact header required by the importer and produced by the
exporter. -/
def expectedHeader : String :=
  "date;heure_debut;heure_fin;categorie;client;projet;devis;type;description;duree_h;facturee"

/-- Data lines paired with their 1-based file line number: the first data
line is line 2. -/
def numberLines (ds : List String) : List (ℕ × String) :=
  ds.enum.map (fun p => (p.1 + 2, p.2))

/-- `handleFileSelect` from TaskModal.tsx, output-relevant part: empty
file and header mismatches are fatal; if any line errored the whole
file is rejected with all line errors; a clean parse with zero tasks is
rejected; otherwise the tasks go to `onImport`. -/
def importCSV (fresh : ℕ → String) (text : String) : ImportResult :=
  match preprocessLines text with
  | [] => ImportResult.fatal ("Le fichier CSV est vide")
  | headerLine :: dataLines =>
    if headerLine ≠ expectedHeader then
      ImportResult.fatal ("En-tête CSV incorrect. Attendu:\n" ++ expectedHeader ++
        "\n\nReçu:\n" ++ headerLine)
    else
      let r := collectLines fresh (numberLines dataLines)
      if r.2 ≠ [] then ImportResult.lineErrors r.2
      else if r.1 = [] then ImportResult.nothingToImport
      else ImportResult.success r.1

/-- JavaScript template rendering of the numbers this app produces
(integral and half-integral nonnegative hours/durations): an integer
prints without a decimal point, a half prints as `⌊q⌋.5`. -/
def jsNumToString (q : ℚ) : String :=
  if q.den = 1 then toString q.num
  else toString ⌊q⌋ ++ ".5"

/-- `pad` from the Index page: `n < 10 ? '0' + n : '' + n`. -/
def pad (q : ℚ) : String :=
  if q < 10 then "0" ++ jsNumToString q else jsNumToString q

/-- `s.replace(/"/g, '""')`. -/
def doubleQuotes (s : String) : String :=
  String.mk ((s.data.map (fun c => if c = '\x22' then ['\x22', '\x22'] else [c])).flatten)

/-- `escapeCSV` from the Index page. -/
def escapeCSV (s : String) : String :=
  if s.data.contains (';') || s.data.contains ('\x22') || s.data.contains ('\x0a') then
    "\x22" ++ doubleQuotes s ++ "\x22"
  else s

def catToString : Category → String
  | Category.FACTURABLE => "FACTURABLE"
  | Category.NON_FACTURABLE => "NON_FACTURABLE"

def orEmpty (o : Option String) : String := o.getD ""

/-- One exported row of `toCSV`: note the times are rendered as
`pad(hour) + ":00"`, the duration as a bare number, and `billed` as
`oui`/`non` only for billable tasks. -/
def taskRow (t : Task) : String :=
  String.intercalate (";")
    (([t.dateISO, pad t.startHour ++ ":00", pad t.endHour ++ ":00", catToString t.category,
      orEmpty t.client, orEmpty t.project, orEmpty t.quote, orEmpty t.type_,
      orEmpty t.description, jsNumToString (t.endHour - t.startHour),
      (if t.category = Category.FACTURABLE then (if t.billed = some true then "oui" else "non")
        else "")]).map escapeCSV)

/-- The export comparator `(a, b) => a.dateISO.localeCompare(b.dateISO) ||
a.startHour - b.startHour`, as a total `≤` for a stable sort. -/
def taskLE (a b : Task) : Bool :=
  if a.dateISO = b.dateISO then decide (a.startHour ≤ b.startHour)
  else decide (a.dateISO < b.dateISO)

/-- `toCSV` from the Index page: header, then one row per task sorted by
`(date, startTime)`. -/
def toCSV (list : List Task) : String :=
  String.intercalate ("\x0a") (expectedHeader :: (list.mergeSort taskLE).map taskRow)

/-- A valid stored task starting on the half hour: 07:30–08:30. -/
def taskHalf : Task :=
  { id := "h", dateISO := "2025-01-06", startHour := 15/2, endHour := 17/2,
    category := Category.FACTURABLE, client := some ("Acme"), billed := some false }

/-- A deterministic stand-in for `generateTaskId` (the claims compare
collections up to id). -/
def fresh0 : ℕ → String := fun n => toString n

/-- Claim C3 (code bug): the export renders the half-hour start 7.5 as
`07.5:00` (via `pad(t.startHour) + ":00"`), which the importer's
`parseTimeToHour` rejects as malformed, so parsing the serialized text
does not reconstruct the collection — the round-trip fails on any
collection with a half-hour time. -/
theorem C3_roundtrip_halfhour_code_bug :
    importCSV fresh0 (toCSV [taskHalf]) =
      ImportResult.lineErrors (["Ligne 2: Format d\x27heure invalide: 07.5:00"]) := by
  with_unfolding_all rfl

/-- The error component of one processed line, as pushed by the loop. -/
def lineErrorOf (fresh : ℕ → String) (p : ℕ × String) : Option String :=
  match parseDataLine (fresh p.1) p.1 p.2 with
  | Except.ok _ => none
  | Except.error e => some ("Ligne " ++ toString p.1 ++ ": " ++ e)

theorem collectLines_snd (fresh : ℕ → String) (l : List (ℕ × String)) :
    (collectLines fresh l).2 = l.filterMap (lineErrorOf fresh) := by
  induction l with
  | nil => rfl
  | cons hd tl ih =>
    obtain ⟨n, s⟩ := hd
    simp only [collectLines, List.filterMap_cons, lineErrorOf]
    cases parseDataLine (fresh n) n s <;> simp [ih]

theorem importCSV_eq (fresh : ℕ → String) (text : String) (ds : List String)
    (hpre : preprocessLines text = expectedHeader :: ds) :
    importCSV fresh text =
      (if (collectLines fresh (numberLines ds)).2 ≠ [] then
        ImportResult.lineErrors (collectLines fresh (numberLines ds)).2
      else if (collectLines fresh (numberLines ds)).1 = [] then ImportResult.nothingToImport
      else ImportResult.success (collectLines fresh (numberLines ds)).1) := by
  unfold importCSV
  rw [hpre]
  simp

/-- Claim C5: with a well-formed header, if any data line fails to parse
then the import result is the aggregated list of all line errors — in
particular no task list is handed to the caller — and a clean parse with
zero data lines yields the nothing-to-import rejection. -/
theorem C5_import_all_or_nothing :
    ∀ (fresh : ℕ → String) (text : String) (ds : List String),
      preprocessLines text = expectedHeader :: ds →
      ((∃ p ∈ numberLines ds, ∃ e, parseDataLine (fresh p.1) p.1 p.2 = Except.error e) →
        importCSV fresh text =
            ImportResult.lineErrors ((numberLines ds).filterMap (lineErrorOf fresh)) ∧
          ∀ ts, importCSV fresh text ≠ ImportResult.success ts) ∧
      (ds = [] → importCSV fresh text = ImportResult.nothingToImport) := by
  intro fresh text ds hpre
  constructor
  · rintro ⟨p, hp, e, he⟩
    have hmem : ("Ligne " ++ toString p.1 ++ ": " ++ e) ∈
        (numberLines ds).filterMap (lineErrorOf fresh) :=
      List.mem_filterMap.2 ⟨p, hp, by rw [lineErrorOf, he]⟩
    have hne : (collectLines fresh (numberLines ds)).2 ≠ [] := by
      rw [collectLines_snd]
      exact List.ne_nil_of_mem hmem
    have hres : importCSV fresh text =
        ImportResult.lineErrors ((numberLines ds).filterMap (lineErrorOf fresh)) := by
      rw [importCSV_eq fresh text ds hpre, if_pos hne, collectLines_snd]
    refine ⟨hres, ?_⟩
    intro ts h
    rw [hres] at h
    cases h
  · rintro rfl
    rw [importCSV_eq fresh text [] hpre]
    simp [numberLines, collectLines]

/-- A clean data line (Scenario D's first line, 09:00–10:00). -/
def dlGood : String := "2025-01-06;09:00;10:00;FACTURABLE;Acme;;;;;1;non"

/-- Scenario D's offending line: `start_time = 25:00`. -/
def dlBadTime : String := "2025-01-06;25:00;26:00;FACTURABLE;Acme;;;;;1;non"

/-- Scenario D's file: header, one good line, one line with `25:00`. -/
def csvTextD : String := expectedHeader ++ "\x0a" ++ dlGood ++ "\x0a" ++ dlBadTime

/-- A file that parses cleanly but contains zero data lines. -/
def csvHeaderOnly : String := expectedHeader ++ "\x0a"

/-- Witness for C5 at Scenario D: the whole import is rejected with the
single line-level error naming line 3, and a header-only file is rejected
as nothing to import. -/
theorem C5_import_all_or_nothing_witness :
    importCSV fresh0 csvTextD = ImportResult.lineErrors
        (["Ligne 3: Heure invalide: 25:00 (seules les heures pleines et demi-heures sont supportées)"]) ∧
      importCSV fresh0 csvHeaderOnly = ImportResult.nothingToImport := by
  constructor
  · have h := (C5_import_all_or_nothing fresh0 csvTextD [dlGood, dlBadTime]
      (by with_unfolding_all rfl)).1
      ⟨(3, dlBadTime), by with_unfolding_all decide,
        "Heure invalide: 25:00 (seules les heures pleines et demi-heures sont supportées)",
        by with_unfolding_all rfl⟩
    rw [h.1]
    with_unfolding_all rfl
  · exact (C5_import_all_or_nothing fresh0 csvHeaderOnly []
      (by with_unfolding_all rfl)).2 rfl

/-- A billable data line with an empty client field. -/
def dlNoClient : String := "2025-01-06;08:00;09:00;FACTURABLE;;;;;;1;non"

/-- A non-billable data line with an empty type field. -/
def dlNoType : String := "2025-01-06;08:00;09:00;NON_FACTURABLE;;;;;;1;"

def csvNoClient : String := expectedHeader ++ "\x0a" ++ dlNoClient

/-- Counterexample to claim C8: a FACTURABLE line with an empty client
field is not a per-line error — the import succeeds and produces a task
whose client is absent. -/
theorem C8_counterexample :
    importCSV fresh0 csvNoClient = ImportResult.success
        ([{ id := "2", dateISO := "2025-01-06", startHour := 8, endHour := 9, category := Category.FACTURABLE, client := none, billed := some false }]) := by
  with_unfolding_all rfl

/-- Claim C8 amended: per-line import validation checks only column count,
date format, time format/granularity, start < end, the category enum and
the billed enum; category-conditioned required fields are never checked,
so a BILLABLE line with an empty client, or a NON_BILLABLE line with an
empty type, parses into a task with that field absent. -/
theorem C8_amended_import_skips_field_validation :
    ∀ (freshId : String) (n : ℕ),
      parseDataLine freshId n ("2025-01-06;08:00;09:00;FACTURABLE;;;;;;1;non")
          = Except.ok { id := freshId, dateISO := "2025-01-06", startHour := 8, endHour := 9, category := Category.FACTURABLE, client := none, billed := some false } ∧
      parseDataLine freshId n ("2025-01-06;08:00;09:00;NON_FACTURABLE;;;;;;1;")
          = Except.ok { id := freshId, dateISO := "2025-01-06", startHour := 8, endHour := 9, category := Category.NON_FACTURABLE, type_ := none, billed := some false } := by
  intro freshId n
  constructor <;> with_unfolding_all rfl
